import Mathlib

/-!
Shallow embedding of `src/sharepoint.py` (AptifySharepoint).

The script speaks the Microsoft Graph REST protocol.  Network traffic is
modelled at the level of parsed responses: a `Response` is the status code
together with the `webUrl` field of the parsed JSON body (the functions under
study only ever read that field, via `.get("webUrl")`, or `value[0]["id"]`
which gets its own body type below).  A call that raises inside the transport
(`requests.get` / `requests.post` / `requests.put` raising a network error) is
modelled by `Option Response` being `none`.

Python functions that can let an exception escape to the caller return a
`PyResult`; the `exn` constructor carries the kind of the escaping exception.
-/

namespace Sharepoint

/-- A parsed HTTP response: the status code and the `webUrl` field of the
parsed JSON body (`none` when the body has no such key).  Bodies are modelled
as their parsed fields. -/
structure Response where
  status : Nat
  webUrl : Option String
  deriving DecidableEq

/-- Outcome of running a Python function: a normal return value, or an
exception of the given kind escaping to the caller. -/
inductive PyResult (α : Type) where
  | ok (a : α)
  | exn (kind : String)
  deriving DecidableEq

/-- A remote call issued by `upload_pdf`, recorded in order.  The upload PUT
carries body = the raw file bytes with content type application/pdf; only the
target URL matters to the claims, so only it is recorded. -/
inductive Request where
  | probeGet (url : String)
  | uploadPut (url : String)
  deriving DecidableEq

/-- `requests.Response.raise_for_status` raises `HTTPError` exactly for
status codes in [400, 600). -/
def raiseForStatus (status : Nat) : Bool :=
  400 ≤ status && status < 600

/-- Python `s.rsplit(sep, 1)` followed by a two-variable unpacking: splits at
the LAST occurrence of `sep`, returning `some (before, after)`; `none` models
the `ValueError` raised by the unpacking when `sep` does not occur. -/
def rsplitOnce (sep : Char) : List Char → Option (List Char × List Char)
  | [] => none
  | c :: rest =>
    match rsplitOnce sep rest with
    | some (b, e) => some (c :: b, e)
    | none => if c = sep then some ([], rest) else none

/-- The probe URL built in the loop body of `upload_pdf` (source line 154):
`https://graph.microsoft.com/v1.0/drives/{drive_id}/root:/{folder_name}/{pdf_file_name}`. -/
def check_url (drive_id folder_name pdf_file_name : String) : String :=
  "https://graph.microsoft.com/v1.0/drives/" ++ drive_id ++ "/root:/" ++
    folder_name ++ "/" ++ pdf_file_name

/-- The upload URL built in `upload_pdf` (source line 167):
`https://graph.microsoft.com/v1.0/drives/{drive_id}/root:/{folder_name}/{pdf_file_name}:/content`. -/
def upload_url (drive_id folder_name pdf_file_name : String) : String :=
  "https://graph.microsoft.com/v1.0/drives/" ++ drive_id ++ "/root:/" ++
    folder_name ++ "/" ++ pdf_file_name ++ ":/content"

/-- Environment for one invocation of `upload_pdf`:
* `probe i` is the response to the probe GET issued by the i-th iteration of
  the while loop (the loop could in principle iterate, so the oracle is
  indexed);
* `fileRead` is `some bytes` when `open(pdf_file_path, "rb")` + `.read()`
  succeeds, `none` when it raises (e.g. the file does not exist);
* `put` is `some r` when `requests.put` returns the response `r`, `none` when
  the transport raises. -/
structure UploadEnv where
  probe : Nat → Response
  fileRead : Option (List Nat)
  put : Option Response

/-- The `while file_exists:` loop of `upload_pdf` (source lines 153-165),
with explicit fuel.  State: `file_exists` (initially `True`).  Each iteration
issues the probe GET; status 200 returns `(webUrl, False)` from the function,
status 401 returns `(None, True)`, and any other status sets
`file_exists = False` so the loop exits.  Returns the requests issued and
`some r` when the function returned inside the loop, `none` when the loop
fell through to the upload step.  (The local `count = 1` of the source is
dead: it is never read or updated.) -/
def probeLoop (oracle : Nat → Response) (cu : String) :
    Nat → Bool → Nat → List Request × Option (Option String × Bool)
  | _, false, _ => ([], none)
  | 0, true, _ => ([], none)
  | fuel + 1, true, i =>
    let resp := oracle i
    if resp.status = 200 then
      ([Request.probeGet cu], some (resp.webUrl, false))
    else if resp.status = 401 then
      ([Request.probeGet cu], some (none, true))
    else
      let rec_ := probeLoop oracle cu fuel false (i + 1)
      (Request.probeGet cu :: rec_.1, rec_.2)

/-- `upload_pdf(access_token, drive_id, folder_name, pdf_file_name,
pdf_file_path)` (source lines 132-181), returning the list of remote calls it
issued together with its outcome.

Control flow of the source:
1. `base_filename, file_extension = pdf_file_name.rsplit(".", 1)` raises
   `ValueError` when the name has no dot (the pair is otherwise unused).
2. the `while file_exists` probe loop (see `probeLoop`);
3. on fall-through, read the local file and `requests.put` to `upload_url`,
   inside `try`; `raise_for_status`; return `(webUrl, False)`.
   In the `except` handler the source reads `upload_response.status_code`:
   when `open`/`read` or `requests.put` itself raised, `upload_response` was
   never assigned and the handler raises `UnboundLocalError`, which escapes
   the function.  When `raise_for_status` raised, the handler returns
   `(None, True)` on status 401 and `(None, False)` otherwise. -/
def upload_pdf (drive_id folder_name pdf_file_name : String) (env : UploadEnv)
    (fuel : Nat) : List Request × PyResult (Option String × Bool) :=
  match rsplitOnce '.' pdf_file_name.data with
  | none => ([], PyResult.exn "ValueError")
  | some _ =>
    let cu := check_url drive_id folder_name pdf_file_name
    match probeLoop env.probe cu fuel true 0 with
    | (reqs, some r) => (reqs, PyResult.ok r)
    | (reqs, none) =>
      let uu := upload_url drive_id folder_name pdf_file_name
      match env.fileRead with
      | none => (reqs, PyResult.exn "UnboundLocalError")
      | some _ =>
        match env.put with
        | none => (reqs ++ [Request.uploadPut uu], PyResult.exn "UnboundLocalError")
        | some resp =>
          if raiseForStatus resp.status then
            if resp.status = 401 then
              (reqs ++ [Request.uploadPut uu], PyResult.ok (none, true))
            else
              (reqs ++ [Request.uploadPut uu], PyResult.ok (none, false))
          else
            (reqs ++ [Request.uploadPut uu], PyResult.ok (resp.webUrl, false))

/-- `create_folder(access_token, drive_id, folder_name)` (source lines
86-128).  The POST goes to
`https://graph.microsoft.com/v1.0/drives/{drive_id}/root/children` with body
`{name, folder: \x7b\x7d, "@microsoft.graph.conflictBehavior": "rename"}`; the
whole request sits in one `try`: a transport error (`resp = none`) or
`raise_for_status` raising (4xx/5xx) is caught and yields `None`; otherwise
the function returns `created_response.json().get("webUrl")`.  (The
existence-check GET of the source is commented out.) -/
def create_folder (resp : Option Response) : Option String :=
  match resp with
  | none => none
  | some r =>
    if raiseForStatus r.status then none
    else r.webUrl

/-- One element of the `value` array of the drives listing: its `id` field
when the key is present.  (A missing key raises `KeyError` in the source,
which the surrounding `try` catches, returning `None`; returning the optional
field models exactly that outcome.) -/
structure DriveEntry where
  id : Option String
  deriving DecidableEq

/-- The parsed JSON body of the drives listing: the `value` key, when
present, holds the array of drive entries. -/
structure DrivesBody where
  value : Option (List DriveEntry)
  deriving DecidableEq

/-- `get_shared_documents_drive_id(access_token, drive_url)` (source lines
47-65).  Inside one `try`: GET, `x = response.json()`, `raise_for_status()`,
`drives = x["value"]`, `return drives[0]["id"]`.  A transport error, a
4xx/5xx status, a missing `value` key (`KeyError`), an empty array
(`IndexError`) or a missing `id` key (`KeyError`) are all caught by the
`except`, which returns `None`. -/
def get_shared_documents_drive_id (resp : Option (Nat × DrivesBody)) :
    Option String :=
  match resp with
  | none => none
  | some (status, body) =>
    if raiseForStatus status then none
    else
      match body.value with
      | none => none
      | some [] => none
      | some (d :: _) => d.id

/-- Worker for Python `str.replace(old, new)` on character lists, replacing
every non-overlapping occurrence of `pat`, scanning left to right.  The fuel
argument makes the recursion structural; each step consumes at least one
character, so fuel `s.length` computes the full replacement (see
`replaceAux_fuel_irrel`-style lemmas below). -/
def replaceAux (pat rep : List Char) : Nat → List Char → List Char
  | _, [] => []
  | 0, s => s
  | fuel + 1, c :: rest =>
    if pat.isPrefixOf (c :: rest) then
      rep ++ replaceAux pat rep fuel ((c :: rest).drop pat.length)
    else
      c :: replaceAux pat rep fuel rest

/-- Python `s.replace(pat, rep)`.  (For an empty `pat` Python intersperses
`rep` between characters; every pattern in this file is a non-empty literal,
so that case is guarded off and never exercised.) -/
def pyReplace (s pat rep : String) : String :=
  if pat.data = [] then s
  else ⟨replaceAux pat.data rep.data s.data.length s.data⟩

/-- The fixed SharePoint URL prefix stripped by `get_network_link`
(source line 187). -/
def sharepoint_base : String :=
  "https://nbcrna.sharepoint.com/sites/HistoricalTranscripts/Shared%20Documents/"

/-- The fixed UNC network-share prefix prepended by `get_network_link`
(source line 193; the Python literal `"\\\\nbcrna-file1\\transcripts$\\"`
denotes the same string as this Lean literal). -/
def network_drive_path : String := "\\\\nbcrna-file1\\transcripts$\\"

/-- `get_network_link(sharepoint_link)` (source lines 183-195):
1. remove every occurrence of `sharepoint_base` and replace every `%20`
   with a space;
2. replace every forward slash with a backslash;
3. prepend `network_drive_path`. -/
def get_network_link (sharepoint_link : String) : String :=
  let relative_path := pyReplace (pyReplace sharepoint_link sharepoint_base "") "%20" " "
  let file_path := pyReplace relative_path "/" "\\"
  network_drive_path ++ file_path

/-- Classifier for probe requests in a trace. -/
def isProbe : Request → Bool
  | Request.probeGet _ => true
  | Request.uploadPut _ => false

/-- Classifier for upload requests in a trace. -/
def isUpload : Request → Bool
  | Request.probeGet _ => false
  | Request.uploadPut _ => true

/-! ### Behaviour of the probe loop -/

theorem probeLoop_false (oracle : Nat → Response) (cu : String) (fuel i : Nat) :
    probeLoop oracle cu fuel false i = ([], none) := by
  cases fuel <;> rfl

theorem probeLoop_succ (oracle : Nat → Response) (cu : String) (fuel i : Nat) :
    probeLoop oracle cu (fuel + 1) true i =
      if (oracle i).status = 200 then
        ([Request.probeGet cu], some ((oracle i).webUrl, false))
      else if (oracle i).status = 401 then
        ([Request.probeGet cu], some (none, true))
      else ([Request.probeGet cu], none) := by
  simp only [probeLoop, probeLoop_false]

theorem probeLoop_one (oracle : Nat → Response) (cu : String) (i : Nat) :
    probeLoop oracle cu 1 true i =
      if (oracle i).status = 200 then
        ([Request.probeGet cu], some ((oracle i).webUrl, false))
      else if (oracle i).status = 401 then
        ([Request.probeGet cu], some (none, true))
      else ([Request.probeGet cu], none) :=
  probeLoop_succ oracle cu 0 i

theorem rsplitOnce_isSome_of_mem (sep : Char) (l : List Char) (h : sep ∈ l) :
    ∃ p, rsplitOnce sep l = some p := by
  induction l with
  | nil => cases h
  | cons c rest ih =>
    cases hr : rsplitOnce sep rest with
    | some p =>
      obtain ⟨b, e⟩ := p
      exact ⟨(c :: b, e), by simp [rsplitOnce, hr]⟩
    | none =>
      have hc : c = sep := by
        rcases List.mem_cons.mp h with h1 | h2
        · exact h1.symm
        · obtain ⟨p, hp⟩ := ih h2
          rw [hp] at hr
          cases hr
      exact ⟨([], rest), by simp [rsplitOnce, hr, hc]⟩

theorem upload_pdf_fuel_irrel (drive folder name : String) (env : UploadEnv)
    (fuel : Nat) (hfuel : 1 ≤ fuel) :
    upload_pdf drive folder name env fuel = upload_pdf drive folder name env 1 := by
  obtain ⟨k, rfl⟩ : ∃ k, fuel = k + 1 := ⟨fuel - 1, (Nat.succ_pred_eq_of_pos hfuel).symm⟩
  unfold upload_pdf
  simp only [probeLoop_succ, probeLoop_one]

/-- Every run of `upload_pdf` (with enough fuel for the single loop iteration
that actually happens) has one of three request traces: no request at all
(the `rsplit` raised), the probe alone, or the probe followed by the upload
PUT; and the `ValueError` outcome occurs only in the first. -/
theorem upload_pdf_shape (drive folder name : String) (env : UploadEnv)
    (fuel : Nat) (hfuel : 1 ≤ fuel) :
    (upload_pdf drive folder name env fuel = ([], PyResult.exn "ValueError")
      ∧ rsplitOnce '.' name.data = none)
    ∨ (∃ r, upload_pdf drive folder name env fuel
          = ([Request.probeGet (check_url drive folder name)], r)
        ∧ r ≠ PyResult.exn "ValueError")
    ∨ (∃ r, upload_pdf drive folder name env fuel
          = ([Request.probeGet (check_url drive folder name),
              Request.uploadPut (upload_url drive folder name)], r)
        ∧ r ≠ PyResult.exn "ValueError") := by
  obtain ⟨k, rfl⟩ : ∃ k, fuel = k + 1 := ⟨fuel - 1, (Nat.succ_pred_eq_of_pos hfuel).symm⟩
  unfold upload_pdf
  cases hr : rsplitOnce '.' name.data with
  | none => exact Or.inl ⟨rfl, rfl⟩
  | some p =>
    simp only [probeLoop_succ]
    by_cases h200 : (env.probe 0).status = 200
    · exact Or.inr (Or.inl ⟨PyResult.ok ((env.probe 0).webUrl, false), by simp [h200], by simp⟩)
    · by_cases h401 : (env.probe 0).status = 401
      · exact Or.inr (Or.inl ⟨PyResult.ok (none, true), by simp [h200, h401], by simp⟩)
      · cases hf : env.fileRead with
        | none =>
          exact Or.inr (Or.inl ⟨PyResult.exn "UnboundLocalError",
            by simp [h200, h401, hf], by simp⟩)
        | some bs =>
          cases hp : env.put with
          | none =>
            exact Or.inr (Or.inr ⟨PyResult.exn "UnboundLocalError",
              by simp [h200, h401, hf, hp], by simp⟩)
          | some resp =>
            by_cases hrf : raiseForStatus resp.status = true
            · by_cases h401b : resp.status = 401
              · exact Or.inr (Or.inr ⟨PyResult.ok (none, true),
                  by simp [h200, h401, hf, hp, hrf, h401b]; decide, by simp⟩)
              · exact Or.inr (Or.inr ⟨PyResult.ok (none, false),
                  by simp [h200, h401, hf, hp, hrf, h401b], by simp⟩)
            · exact Or.inr (Or.inr ⟨PyResult.ok (resp.webUrl, false),
                by simp [h200, h401, hf, hp, hrf], by simp⟩)

/-! ### Claims about `upload_pdf` -/

/-- Claim C1: for every invocation of `upload_pdf` in which the
existence-probe GET returns HTTP 200, the function returns the pair
(webUrl of the existing file, false) immediately, and the request trace is
the single probe GET: the upload PUT is never issued. -/
theorem upload_pdf_probe_found_returns_existing (drive folder name : String)
    (env : UploadEnv) (fuel : Nat) (hdot : '.' ∈ name.data) (hfuel : 1 ≤ fuel)
    (h200 : (env.probe 0).status = 200) :
    upload_pdf drive folder name env fuel
      = ([Request.probeGet (check_url drive folder name)],
         PyResult.ok ((env.probe 0).webUrl, false)) := by
  obtain ⟨k, rfl⟩ : ∃ k, fuel = k + 1 := ⟨fuel - 1, (Nat.succ_pred_eq_of_pos hfuel).symm⟩
  obtain ⟨p, hp⟩ := rsplitOnce_isSome_of_mem '.' name.data hdot
  unfold upload_pdf
  rw [hp]
  simp only [probeLoop_succ]
  simp [h200]

theorem upload_pdf_probe_found_returns_existing_witness :
    upload_pdf "d" "F" "a.pdf" ⟨fun _ => ⟨200, some "X"⟩, some [], none⟩ 1
      = ([Request.probeGet (check_url "d" "F" "a.pdf")],
         PyResult.ok (some "X", false)) :=
  upload_pdf_probe_found_returns_existing "d" "F" "a.pdf"
    ⟨fun _ => ⟨200, some "X"⟩, some [], none⟩ 1 (by decide) (by decide) rfl

/-- Claim C2: when either the existence probe or the upload PUT comes back
HTTP 401, `upload_pdf` returns `(none, true)` and performs no further remote
call in that invocation (the trace ends at the call that returned 401). -/
theorem upload_pdf_auth_expired_short_circuit (drive folder name : String)
    (env : UploadEnv) (fuel : Nat) (hdot : '.' ∈ name.data) (hfuel : 1 ≤ fuel) :
    ((env.probe 0).status = 401 →
      upload_pdf drive folder name env fuel
        = ([Request.probeGet (check_url drive folder name)],
           PyResult.ok (none, true)))
    ∧ (∀ bs r, (env.probe 0).status ≠ 200 → (env.probe 0).status ≠ 401 →
        env.fileRead = some bs → env.put = some r → r.status = 401 →
        upload_pdf drive folder name env fuel
          = ([Request.probeGet (check_url drive folder name),
              Request.uploadPut (upload_url drive folder name)],
             PyResult.ok (none, true))) := by
  obtain ⟨k, rfl⟩ : ∃ k, fuel = k + 1 := ⟨fuel - 1, (Nat.succ_pred_eq_of_pos hfuel).symm⟩
  obtain ⟨p, hp⟩ := rsplitOnce_isSome_of_mem '.' name.data hdot
  constructor
  · intro h401
    have h200 : (env.probe 0).status ≠ 200 := by omega
    unfold upload_pdf
    rw [hp]
    simp only [probeLoop_succ]
    simp [h200, h401]
  · intro bs r h200 h401 hfr hput hr401
    unfold upload_pdf
    rw [hp]
    simp only [probeLoop_succ]
    simp [h200, h401, hfr, hput, hr401, raiseForStatus]

theorem upload_pdf_auth_expired_short_circuit_witness :
    upload_pdf "d" "F" "a.pdf" ⟨fun _ => ⟨401, none⟩, some [], none⟩ 1
      = ([Request.probeGet (check_url "d" "F" "a.pdf")], PyResult.ok (none, true))
    ∧ upload_pdf "d" "F" "a.pdf" ⟨fun _ => ⟨404, none⟩, some [], some ⟨401, none⟩⟩ 1
      = ([Request.probeGet (check_url "d" "F" "a.pdf"),
          Request.uploadPut (upload_url "d" "F" "a.pdf")],
         PyResult.ok (none, true)) :=
  ⟨(upload_pdf_auth_expired_short_circuit "d" "F" "a.pdf"
      ⟨fun _ => ⟨401, none⟩, some [], none⟩ 1 (by decide) (by decide)).1 rfl,
   (upload_pdf_auth_expired_short_circuit "d" "F" "a.pdf"
      ⟨fun _ => ⟨404, none⟩, some [], some ⟨401, none⟩⟩ 1 (by decide) (by decide)).2
     [] ⟨401, none⟩ (by decide) (by decide) rfl rfl rfl⟩

/-- Claim C4 is a code bug: with the probe returning 404 and the read of the
local file raising (for instance because `pdf_file_path` does not exist), the
`except` handler evaluates `upload_response.status_code` although
`upload_response` was never assigned, so an `UnboundLocalError` escapes
`upload_pdf` instead of the documented sentinel return `(None, False)`. -/
theorem upload_pdf_fileread_exception_escapes :
    upload_pdf "d" "Test2" "a.pdf" ⟨fun _ => ⟨404, none⟩, none, none⟩ 1
      = ([Request.probeGet (check_url "d" "Test2" "a.pdf")],
         PyResult.exn "UnboundLocalError") := by
  decide

/-- Claim C7: an invocation of `upload_pdf` is insensitive to the fuel bound
on the `while` loop (the loop body always returns or clears `file_exists`, so
a second iteration never runs), and its trace holds at most one probe GET and
at most one upload PUT: no retry for any outcome. -/
theorem upload_pdf_single_probe_single_put (drive folder name : String)
    (env : UploadEnv) (fuel : Nat) (hfuel : 1 ≤ fuel) :
    upload_pdf drive folder name env fuel = upload_pdf drive folder name env 1
    ∧ (upload_pdf drive folder name env fuel).1.countP isProbe ≤ 1
    ∧ (upload_pdf drive folder name env fuel).1.countP isUpload ≤ 1 := by
  refine ⟨upload_pdf_fuel_irrel drive folder name env fuel hfuel, ?_, ?_⟩ <;>
  · rcases upload_pdf_shape drive folder name env fuel hfuel with
      ⟨h, -⟩ | ⟨r, h, -⟩ | ⟨r, h, -⟩ <;>
      rw [h] <;>
      simp [List.countP_cons, List.countP_nil, isProbe, isUpload]

theorem upload_pdf_single_probe_single_put_witness :
    upload_pdf "d" "F" "a.pdf" ⟨fun _ => ⟨404, none⟩, some [], some ⟨200, some "Y"⟩⟩ 5
      = upload_pdf "d" "F" "a.pdf" ⟨fun _ => ⟨404, none⟩, some [], some ⟨200, some "Y"⟩⟩ 1
    ∧ (upload_pdf "d" "F" "a.pdf"
        ⟨fun _ => ⟨404, none⟩, some [], some ⟨200, some "Y"⟩⟩ 5).1.countP isProbe ≤ 1
    ∧ (upload_pdf "d" "F" "a.pdf"
        ⟨fun _ => ⟨404, none⟩, some [], some ⟨200, some "Y"⟩⟩ 5).1.countP isUpload ≤ 1 :=
  upload_pdf_single_probe_single_put "d" "F" "a.pdf"
    ⟨fun _ => ⟨404, none⟩, some [], some ⟨200, some "Y"⟩⟩ 5 (by decide)

/-- Claim C8: every upload PUT in the trace of an invocation of `upload_pdf`
targets exactly
`{graph_base}/drives/{drive_id}/root:/{folder_name}/{pdf_file_name}:/content`
with the caller-supplied file name unchanged: no numeric suffix is ever
appended, whatever the probe found. -/
theorem upload_pdf_put_target_path (drive folder name : String)
    (env : UploadEnv) (fuel : Nat) (hfuel : 1 ≤ fuel) (u : String)
    (hmem : Request.uploadPut u ∈ (upload_pdf drive folder name env fuel).1) :
    u = "https://graph.microsoft.com/v1.0/drives/" ++ drive ++ "/root:/"
          ++ folder ++ "/" ++ name ++ ":/content" := by
  rcases upload_pdf_shape drive folder name env fuel hfuel with
    ⟨h, -⟩ | ⟨r, h, -⟩ | ⟨r, h, -⟩ <;> rw [h] at hmem
  · simp at hmem
  · simp at hmem
  · simp [upload_url] at hmem
    exact hmem

theorem upload_pdf_put_target_path_witness :
    Request.uploadPut "https://graph.microsoft.com/v1.0/drives/d/root:/F/a.pdf:/content"
        ∈ (upload_pdf "d" "F" "a.pdf"
            ⟨fun _ => ⟨404, none⟩, some [], some ⟨200, some "Y"⟩⟩ 1).1
    ∧ "https://graph.microsoft.com/v1.0/drives/d/root:/F/a.pdf:/content"
        = "https://graph.microsoft.com/v1.0/drives/" ++ "d" ++ "/root:/"
            ++ "F" ++ "/" ++ "a.pdf" ++ ":/content" :=
  ⟨by decide,
   upload_pdf_put_target_path "d" "F" "a.pdf"
     ⟨fun _ => ⟨404, none⟩, some [], some ⟨200, some "Y"⟩⟩ 1 (by decide)
     "https://graph.microsoft.com/v1.0/drives/d/root:/F/a.pdf:/content" (by decide)⟩

/-- Claim C9: when `pdf_file_name` contains at least one dot, the
base-name/extension split at the top of `upload_pdf` succeeds, and the
`ValueError` branch of the two-way unpacking is unreachable. -/
theorem upload_pdf_split_succeeds (name : String) (hdot : '.' ∈ name.data) :
    (∃ b e, rsplitOnce '.' name.data = some (b, e))
    ∧ ∀ drive folder env fuel, 1 ≤ fuel →
        (upload_pdf drive folder name env fuel).2 ≠ PyResult.exn "ValueError" := by
  obtain ⟨p, hp⟩ := rsplitOnce_isSome_of_mem '.' name.data hdot
  obtain ⟨b, e⟩ := p
  refine ⟨⟨b, e, hp⟩, ?_⟩
  intro drive folder env fuel hfuel
  rcases upload_pdf_shape drive folder name env fuel hfuel with
    ⟨h, hnone⟩ | ⟨r, h, hne⟩ | ⟨r, h, hne⟩
  · rw [hp] at hnone
    cases hnone
  · rw [h]
    exact hne
  · rw [h]
    exact hne

theorem upload_pdf_split_succeeds_witness :
    (∃ b e, rsplitOnce '.' "a.pdf".data = some (b, e))
    ∧ ∀ drive folder env fuel, 1 ≤ fuel →
        (upload_pdf drive folder "a.pdf" env fuel).2 ≠ PyResult.exn "ValueError" :=
  upload_pdf_split_succeeds "a.pdf" (by decide)

/-! ### Claims about `create_folder` and `get_shared_documents_drive_id` -/

/-- Claim C3 counterexample: a 304 response is not 2xx, yet `create_folder`
returns the body webUrl rather than `none`, because `raise_for_status` only
raises on 4xx/5xx. -/
theorem create_folder_non2xx_counterexample :
    ¬ (200 ≤ 304 ∧ 304 < 300)
    ∧ create_folder (some ⟨304, some "u"⟩) = some "u"
    ∧ create_folder (some ⟨304, some "u"⟩) ≠ none := by
  decide

/-- Claim C3 as amended: `create_folder` returns the webUrl of the response
body for a 2xx response, returns `none` for a 4xx/5xx response or a request
error, and — the part the original claim missed — also returns the body
webUrl for a 3xx response, which `raise_for_status` does not treat as an
error. -/
theorem create_folder_status_behavior (r : Response) :
    (200 ≤ r.status → r.status < 300 → create_folder (some r) = r.webUrl)
    ∧ (300 ≤ r.status → r.status < 400 → create_folder (some r) = r.webUrl)
    ∧ (400 ≤ r.status → r.status < 600 → create_folder (some r) = none)
    ∧ create_folder none = none := by
  refine ⟨?_, ?_, ?_, rfl⟩
  · intro h1 h2
    have hrf : raiseForStatus r.status = false := by
      simp only [raiseForStatus, Bool.and_eq_false_iff, decide_eq_false_iff_not]
      omega
    simp [create_folder, hrf]
  · intro h1 h2
    have hrf : raiseForStatus r.status = false := by
      simp only [raiseForStatus, Bool.and_eq_false_iff, decide_eq_false_iff_not]
      omega
    simp [create_folder, hrf]
  · intro h1 h2
    have hrf : raiseForStatus r.status = true := by
      simp only [raiseForStatus, Bool.and_eq_true, decide_eq_true_iff]
      omega
    simp [create_folder, hrf]

theorem create_folder_status_behavior_witness :
    (200 ≤ 201 → 201 < 300 → create_folder (some ⟨201, some "w"⟩) = some "w")
    ∧ (300 ≤ 201 → 201 < 400 → create_folder (some ⟨201, some "w"⟩) = some "w")
    ∧ (400 ≤ 201 → 201 < 600 → create_folder (some ⟨201, some "w"⟩) = none)
    ∧ create_folder none = none :=
  create_folder_status_behavior ⟨201, some "w"⟩

/-- Claim C10: for a 2xx drives listing whose `value` array is non-empty,
`get_shared_documents_drive_id` returns the `id` field of the first element;
when `value` is missing or empty it returns `none` (the KeyError/IndexError
is caught), rather than surfacing an error. -/
theorem get_shared_documents_drive_id_first_or_none (status : Nat)
    (body : DrivesBody) (h2 : 200 ≤ status) (h3 : status < 300) :
    (∀ d ds, body.value = some (d :: ds) →
      get_shared_documents_drive_id (some (status, body)) = d.id)
    ∧ ((body.value = none ∨ body.value = some []) →
      get_shared_documents_drive_id (some (status, body)) = none) := by
  have hrf : raiseForStatus status = false := by
    simp only [raiseForStatus, Bool.and_eq_false_iff, decide_eq_false_iff_not]
    omega
  constructor
  · intro d ds hv
    simp [get_shared_documents_drive_id, hrf, hv]
  · rintro (hv | hv) <;> simp [get_shared_documents_drive_id, hrf, hv]

theorem get_shared_documents_drive_id_first_or_none_witness :
    (∀ d ds, (DrivesBody.mk (some [⟨some "drv"⟩])).value = some (d :: ds) →
      get_shared_documents_drive_id (some (200, ⟨some [⟨some "drv"⟩]⟩)) = d.id)
    ∧ (((DrivesBody.mk (some [⟨some "drv"⟩])).value = none
          ∨ (DrivesBody.mk (some [⟨some "drv"⟩])).value = some []) →
      get_shared_documents_drive_id (some (200, ⟨some [⟨some "drv"⟩]⟩)) = none) :=
  get_shared_documents_drive_id_first_or_none 200 ⟨some [⟨some "drv"⟩]⟩
    (by decide) (by decide)

/-! ### String-replacement lemmas for the link translator -/

/-- The character map computed by the slash-to-backslash replacement. -/
def slashFn (c : Char) : Char := if c = '/' then '\\' else c

theorem replaceAux_id (pat rep : List Char) :
    ∀ (fuel : Nat) (t : List Char), ¬ pat <:+: t → replaceAux pat rep fuel t = t := by
  intro fuel
  induction fuel with
  | zero => intro t ht; cases t <;> rfl
  | succ n ih =>
    intro t ht
    cases t with
    | nil => rfl
    | cons c rest =>
      have h1 : ¬ pat <+: c :: rest := fun h => ht (List.infix_cons_iff.mpr (Or.inl h))
      have h2 : ¬ pat <:+: rest := fun h => ht (List.infix_cons_iff.mpr (Or.inr h))
      have hb : pat.isPrefixOf (c :: rest) = false := by
        rw [← Bool.not_eq_true, List.isPrefixOf_iff_prefix]
        exact h1
      simp [replaceAux, hb, ih rest h2]

theorem pyReplace_data (s pat rep : String) (h : pat.data ≠ []) :
    (pyReplace s pat rep).data = replaceAux pat.data rep.data s.data.length s.data := by
  simp [pyReplace, h]

theorem pyReplace_id (s pat rep : String) (h : ¬ (pat.data <:+: s.data)) :
    pyReplace s pat rep = s := by
  by_cases hp : pat.data = []
  · simp [pyReplace, hp]
  · simp [pyReplace, hp, replaceAux_id pat.data rep.data _ s.data h]

theorem mem_of_singleton_occurrence {c : Char} {l : List Char} (h : [c] <:+: l) :
    c ∈ l := by
  obtain ⟨u, v, rfl⟩ := h
  simp

theorem replaceAux_p20_prefix_zero (fuel : Nat) (t : List Char)
    (h : ['0'] <+: replaceAux ['%', '2', '0'] [' '] fuel t) : ['0'] <+: t := by
  cases fuel with
  | zero => cases t with
    | nil => exact h
    | cons c rest => exact h
  | succ n =>
    cases t with
    | nil => exact h
    | cons c rest =>
      simp only [replaceAux] at h
      by_cases hb : (['%', '2', '0'] : List Char).isPrefixOf (c :: rest) = true
      · rw [if_pos hb] at h
        rcases List.cons_prefix_cons.mp h with ⟨h0, -⟩
        exact absurd h0 (by decide)
      · rw [if_neg hb] at h
        rcases List.cons_prefix_cons.mp h with ⟨h0, -⟩
        exact List.cons_prefix_cons.mpr ⟨h0, List.nil_prefix⟩

theorem replaceAux_p20_prefix_two (fuel : Nat) (t : List Char)
    (h : ['2', '0'] <+: replaceAux ['%', '2', '0'] [' '] fuel t) : ['2', '0'] <+: t := by
  cases fuel with
  | zero => cases t with
    | nil => exact h
    | cons c rest => exact h
  | succ n =>
    cases t with
    | nil => exact h
    | cons c rest =>
      simp only [replaceAux] at h
      by_cases hb : (['%', '2', '0'] : List Char).isPrefixOf (c :: rest) = true
      · rw [if_pos hb] at h
        rcases List.cons_prefix_cons.mp h with ⟨h0, -⟩
        exact absurd h0 (by decide)
      · rw [if_neg hb] at h
        rcases List.cons_prefix_cons.mp h with ⟨h0, h1⟩
        exact List.cons_prefix_cons.mpr ⟨h0, replaceAux_p20_prefix_zero n rest h1⟩

theorem replaceAux_p20_no_occurrence :
    ∀ (fuel : Nat) (t : List Char), t.length ≤ fuel →
      ¬ (['%', '2', '0'] <:+: replaceAux ['%', '2', '0'] [' '] fuel t) := by
  intro fuel
  induction fuel with
  | zero =>
    intro t ht
    have ht0 : t = [] := List.eq_nil_of_length_eq_zero (Nat.le_zero.mp ht)
    subst ht0
    simp [replaceAux, List.infix_nil]
  | succ n ih =>
    intro t ht
    cases t with
    | nil => simp [replaceAux, List.infix_nil]
    | cons c rest =>
      simp only [replaceAux]
      by_cases hb : (['%', '2', '0'] : List Char).isPrefixOf (c :: rest) = true
      · rw [if_pos hb]
        intro hin
        rcases List.infix_cons_iff.mp (by simpa using hin) with hpre | hinf
        · rcases List.cons_prefix_cons.mp hpre with ⟨h0, -⟩
          exact absurd h0 (by decide)
        · have hlen : ((c :: rest).drop (['%', '2', '0'] : List Char).length).length ≤ n := by
            simp only [List.length_drop, List.length_cons] at *
            omega
          exact ih _ hlen hinf
      · rw [if_neg hb]
        intro hin
        rcases List.infix_cons_iff.mp hin with hpre | hinf
        · rcases List.cons_prefix_cons.mp hpre with ⟨h0, h1⟩
          exact hb (List.isPrefixOf_iff_prefix.mpr
            (List.cons_prefix_cons.mpr ⟨h0, replaceAux_p20_prefix_two n rest h1⟩))
        · have hlen : rest.length ≤ n := by
            simp only [List.length_cons] at ht
            omega
          exact ih rest hlen hinf

theorem replaceAux_slash_eq_map :
    ∀ (fuel : Nat) (t : List Char), t.length ≤ fuel →
      replaceAux ['/'] ['\\'] fuel t = t.map slashFn := by
  intro fuel
  induction fuel with
  | zero =>
    intro t ht
    have ht0 : t = [] := List.eq_nil_of_length_eq_zero (Nat.le_zero.mp ht)
    subst ht0
    rfl
  | succ n ih =>
    intro t ht
    cases t with
    | nil => rfl
    | cons c rest =>
      have hlen : rest.length ≤ n := by
        simp only [List.length_cons] at ht
        omega
      by_cases hc : c = '/'
      · have hb : (['/'] : List Char).isPrefixOf (c :: rest) = true := by
          simp [List.isPrefixOf, hc]
        simp [replaceAux, hb, slashFn, hc, ih rest hlen]
      · have hb : (['/'] : List Char).isPrefixOf (c :: rest) = false := by
          simp only [List.isPrefixOf, Bool.and_eq_false_iff, beq_eq_false_iff_ne, ne_eq]
          exact Or.inl fun hh => hc hh.symm
        simp [replaceAux, hb, slashFn, hc, ih rest hlen]

theorem slash_not_mem_map (t : List Char) : '/' ∉ t.map slashFn := by
  intro hmem
  rcases List.mem_map.mp hmem with ⟨a, -, ha⟩
  by_cases hc : a = '/'
  · rw [slashFn, if_pos hc] at ha
    exact absurd ha (by decide)
  · rw [slashFn, if_neg hc] at ha
    exact hc ha

theorem map_slash_prefix_zero (t : List Char)
    (h : ['0'] <+: t.map slashFn) : ['0'] <+: t := by
  cases t with
  | nil => exact h
  | cons a t2 =>
    rcases List.cons_prefix_cons.mp h with ⟨h0, -⟩
    have ha : a = '0' := by
      by_cases hc : a = '/'
      · rw [slashFn, if_pos hc] at h0
        exact absurd h0 (by decide)
      · rw [slashFn, if_neg hc] at h0
        exact h0.symm
    exact List.cons_prefix_cons.mpr ⟨ha.symm, List.nil_prefix⟩

theorem map_slash_prefix_two (t : List Char)
    (h : ['2', '0'] <+: t.map slashFn) : ['2', '0'] <+: t := by
  cases t with
  | nil => exact h
  | cons a t2 =>
    rcases List.cons_prefix_cons.mp h with ⟨h0, h1⟩
    have ha : a = '2' := by
      by_cases hc : a = '/'
      · rw [slashFn, if_pos hc] at h0
        exact absurd h0 (by decide)
      · rw [slashFn, if_neg hc] at h0
        exact h0.symm
    exact List.cons_prefix_cons.mpr ⟨ha.symm, map_slash_prefix_zero t2 h1⟩

theorem map_slash_no_p20 :
    ∀ t : List Char, ¬ (['%', '2', '0'] <:+: t) →
      ¬ (['%', '2', '0'] <:+: t.map slashFn) := by
  intro t
  induction t with
  | nil => intro h hin; exact h hin
  | cons a t2 ih =>
    intro h hin
    rcases List.infix_cons_iff.mp hin with hpre | hinf
    · rcases List.cons_prefix_cons.mp hpre with ⟨h0, h1⟩
      have ha : a = '%' := by
        by_cases hc : a = '/'
        · rw [slashFn, if_pos hc] at h0
          exact absurd h0 (by decide)
        · rw [slashFn, if_neg hc] at h0
          exact h0.symm
      exact h (List.infix_cons_iff.mpr
        (Or.inl (List.cons_prefix_cons.mpr ⟨ha.symm, map_slash_prefix_two t2 h1⟩)))
    · exact ih (fun hh => h (List.infix_cons_iff.mpr (Or.inr hh))) hinf

theorem no_p20_append (pre : List Char) (hpre : '%' ∉ pre) (v : List Char)
    (hv : ¬ (['%', '2', '0'] <:+: v)) : ¬ (['%', '2', '0'] <:+: pre ++ v) := by
  induction pre with
  | nil => simpa using hv
  | cons a pre2 ih =>
    rw [List.mem_cons, not_or] at hpre
    intro hin
    rcases List.infix_cons_iff.mp hin with hpre' | hinf
    · rcases List.cons_prefix_cons.mp hpre' with ⟨h0, -⟩
      exact hpre.1 h0
    · exact ih hpre.2 hinf

theorem no_slash_append (pre v : List Char) (h1 : '/' ∉ pre) (h2 : '/' ∉ v) :
    '/' ∉ pre ++ v := by
  intro hm
  rcases List.mem_append.mp hm with hm | hm
  exacts [h1 hm, h2 hm]

/-! ### Claims about `get_network_link` -/

set_option maxRecDepth 80000 in
/-- Claim C5: for every well-formed input URL under the known SharePoint
prefix, `get_network_link` returns a UNC path that begins with
`\\nbcrna-file1\transcripts$\`, contains no forward slash (only backslashes
as separators) and no `%20` sequence; and on the specific spec scenario input
it returns exactly `\\nbcrna-file1\transcripts$\Test2\Bob Smith_Transcript_1.pdf`. -/
theorem get_network_link_under_prefix_spec :
    (∀ s : String, sharepoint_base.data <+: s.data →
      network_drive_path.data <+: (get_network_link s).data
      ∧ '/' ∉ (get_network_link s).data
      ∧ ¬ ("%20".data <:+: (get_network_link s).data))
    ∧ get_network_link
        "https://nbcrna.sharepoint.com/sites/HistoricalTranscripts/Shared%20Documents/Test2/Bob%20Smith_Transcript_1.pdf"
      = "\\\\nbcrna-file1\\transcripts$\\Test2\\Bob Smith_Transcript_1.pdf" := by
  constructor
  · intro s _
    have hno20 : ¬ (['%', '2', '0'] <:+:
        (pyReplace (pyReplace s sharepoint_base "") "%20" " ").data) := by
      rw [pyReplace_data _ "%20" " " (by decide)]
      exact replaceAux_p20_no_occurrence _ _ (le_refl _)
    have h2 : (pyReplace (pyReplace (pyReplace s sharepoint_base "") "%20" " ") "/" "\\").data
        = ((pyReplace (pyReplace s sharepoint_base "") "%20" " ").data).map slashFn := by
      rw [pyReplace_data _ "/" "\\" (by decide)]
      exact replaceAux_slash_eq_map _ _ (le_refl _)
    have hdata : (get_network_link s).data
        = network_drive_path.data
            ++ (pyReplace (pyReplace (pyReplace s sharepoint_base "") "%20" " ") "/" "\\").data := by
      simp [get_network_link]
    refine ⟨?_, ?_, ?_⟩
    · rw [hdata]
      exact List.prefix_append _ _
    · rw [hdata]
      exact no_slash_append _ _ (by decide) (h2 ▸ slash_not_mem_map _)
    · rw [hdata]
      exact no_p20_append _ (by decide) _ (h2 ▸ map_slash_no_p20 _ hno20)
  · decide

set_option maxRecDepth 80000 in
theorem get_network_link_under_prefix_spec_witness :
    network_drive_path.data <+:
      (get_network_link
        "https://nbcrna.sharepoint.com/sites/HistoricalTranscripts/Shared%20Documents/Test2/Bob%20Smith_Transcript_1.pdf").data
    ∧ '/' ∉
      (get_network_link
        "https://nbcrna.sharepoint.com/sites/HistoricalTranscripts/Shared%20Documents/Test2/Bob%20Smith_Transcript_1.pdf").data
    ∧ ¬ ("%20".data <:+:
      (get_network_link
        "https://nbcrna.sharepoint.com/sites/HistoricalTranscripts/Shared%20Documents/Test2/Bob%20Smith_Transcript_1.pdf").data) :=
  get_network_link_under_prefix_spec.1
    "https://nbcrna.sharepoint.com/sites/HistoricalTranscripts/Shared%20Documents/Test2/Bob%20Smith_Transcript_1.pdf"
    (by decide)

set_option maxRecDepth 80000 in
/-- Claim C6 counterexample: the input `"a/b"` is not under (does not even
contain) the known prefix, yet the result is not the network prefix
prepended to the unmodified input: the slash substitution still applies. -/
theorem get_network_link_unmodified_counterexample :
    ¬ (sharepoint_base.data <:+: "a/b".data)
    ∧ get_network_link "a/b" = "\\\\nbcrna-file1\\transcripts$\\a\\b"
    ∧ get_network_link "a/b" ≠ network_drive_path ++ "a/b" := by
  refine ⟨by decide, by decide, by decide⟩

/-- Claim C6 as amended: for an input string in which the known prefix does
not occur, `get_network_link` is total and the prefix strip is a no-op; the
function still replaces `%20` by a space and `/` by a backslash before
prepending the fixed network prefix, so the input passes through unmodified
precisely on inputs free of `%20` and of forward slashes. -/
theorem get_network_link_no_prefix_behavior (s : String)
    (h : ¬ (sharepoint_base.data <:+: s.data)) :
    get_network_link s = network_drive_path ++ pyReplace (pyReplace s "%20" " ") "/" "\\"
    ∧ (¬ ("%20".data <:+: s.data) → '/' ∉ s.data →
        get_network_link s = network_drive_path ++ s) := by
  have h0 : pyReplace s sharepoint_base "" = s := pyReplace_id s sharepoint_base "" h
  constructor
  · simp [get_network_link, h0]
  · intro h1 h2
    have h3 : pyReplace s "%20" " " = s := pyReplace_id s "%20" " " h1
    have h4 : pyReplace s "/" "\\" = s :=
      pyReplace_id s "/" "\\" (fun hin => h2 (mem_of_singleton_occurrence hin))
    simp [get_network_link, h0, h3, h4]

set_option maxRecDepth 80000 in
theorem get_network_link_no_prefix_behavior_witness :
    (get_network_link "plain.txt"
      = network_drive_path ++ pyReplace (pyReplace "plain.txt" "%20" " ") "/" "\\")
    ∧ (¬ ("%20".data <:+: "plain.txt".data) → '/' ∉ "plain.txt".data →
        get_network_link "plain.txt" = network_drive_path ++ "plain.txt") :=
  get_network_link_no_prefix_behavior "plain.txt" (by decide)

end Sharepoint
